import Mathlib

/-!
Verification of the VOR simulator navigation kernel
(`src/VOR_FINAL_UPDATED.py`).

The pure angle calculators (`calculate_vor_to_from`,
`calculate_cdi_deflection`) are embedded over `ℚ`, where Python's float
arithmetic on the involved operations (subtraction, `%` with positive
divisor, comparison, halving, clamping) is exact.  The geometric and
stateful parts (`calculate_bearing`, `calculate_distance`, the GUI state
mutations) involve `atan2`, `sqrt` and `π` and are embedded over `ℝ`.
-/

section PyMod

variable {K : Type} [LinearOrderedField K] [FloorRing K]

/-- Python's `%` operator on floats for a positive divisor:
`a % b = a - b * floor (a / b)`, which lands in `[0, b)` when `b > 0`. -/
def pymod (a b : K) : K := a - b * (⌊a / b⌋ : K)

end PyMod

/-- Modelled from the spec, section 4.1 (the Python source inlines the same
`(x + 360) % 360` computation at each use site):
`normalize_degrees(a) = ((a mod 360) + 360) mod 360`. -/
def normalize_degrees (a : ℚ) : ℚ := pymod (pymod a 360 + 360) 360

/-- TO/FROM indication returned by the radial resolver. -/
inductive ToFrom : Type
  | TO : ToFrom
  | FROM : ToFrom
deriving DecidableEq

/-- The opposite TO/FROM indication. -/
def ToFrom.opposite : ToFrom → ToFrom
  | .TO => .FROM
  | .FROM => .TO

/-- Embeds `calculate_vor_to_from(obs, bearing)` from
`src/VOR_FINAL_UPDATED.py`: classifies the bearing against the selected
course and its reciprocal and returns TO or FROM. -/
def calculate_vor_to_from (obs bearing : ℚ) : ToFrom :=
  let diff := pymod (bearing - obs + 360) 360
  let reciprocal_diff := pymod (diff + 180) 360
  if min diff (360 - diff) ≤ min reciprocal_diff (360 - reciprocal_diff) then
    if diff < 90 ∨ diff > 270 then ToFrom.TO else ToFrom.FROM
  else
    if reciprocal_diff < 90 ∨ reciprocal_diff > 270 then ToFrom.FROM else ToFrom.TO

/-- Steps 1-3 of `calculate_cdi_deflection(obs, bearing_to_vor)` from
`src/VOR_FINAL_UPDATED.py`: the signed angular difference folded onto the
nearer of the selected radial and its reciprocal. -/
def cdiFoldedDiff (obs bearing_to_vor : ℚ) : ℚ :=
  let diff := pymod (bearing_to_vor - obs + 360) 360
  let diff := if diff > 180 then diff - 360 else diff
  let reciprocal_diff := if diff < 0 then diff + 180 else diff - 180
  if |reciprocal_diff| < |diff| then reciprocal_diff else diff

/-- Embeds `calculate_cdi_deflection(obs, bearing_to_vor)` from
`src/VOR_FINAL_UPDATED.py`: the folded difference converted to dots
(`diff / 2.0`) and clamped by `max(-10, min(10, dots))`. -/
def calculate_cdi_deflection (obs bearing_to_vor : ℚ) : ℚ :=
  max (-10) (min 10 (cdiFoldedDiff obs bearing_to_vor / 2))

/-- Python's `math.atan2(y, x)`: the argument of the complex number
`x + y*i`, in `(-π, π]`, with `atan2(0, 0) = 0`. -/
noncomputable def atan2 (y x : ℝ) : ℝ := Complex.arg ⟨x, y⟩

/-- Python's `math.degrees`: radians to degrees. -/
noncomputable def degrees (x : ℝ) : ℝ := x * 180 / Real.pi

/-- Embeds `calculate_bearing(x_aircraft, y_aircraft, x_vor, y_vor)` from
`src/VOR_FINAL_UPDATED.py`: `degrees(atan2(dx, dy))` for the displacement
from aircraft to station, then `(angle + 360) % 360`. -/
noncomputable def calculate_bearing (x_aircraft y_aircraft x_vor y_vor : ℝ) : ℝ :=
  pymod (degrees (atan2 (x_vor - x_aircraft) (y_vor - y_aircraft)) + 360) 360

/-- Python's built-in `round` to an integer: round half to even. -/
noncomputable def py_round_int (x : ℝ) : ℤ :=
  if Int.fract x < 1 / 2 then ⌊x⌋
  else if 1 / 2 < Int.fract x then ⌊x⌋ + 1
  else if 2 ∣ ⌊x⌋ then ⌊x⌋ else ⌊x⌋ + 1

/-- Python's `round(x, 2)`: round half to even at two decimal places. -/
noncomputable def py_round2 (x : ℝ) : ℝ := ((py_round_int (x * 100) : ℝ)) / 100

/-- Embeds `calculate_distance(x1, y1, x2, y2)` from
`src/VOR_FINAL_UPDATED.py`: `round(sqrt((x2-x1)**2 + (y2-y1)**2), 2)`. -/
noncomputable def calculate_distance (x1 y1 x2 y2 : ℝ) : ℝ :=
  py_round2 (Real.sqrt ((x2 - x1) ^ 2 + (y2 - y1) ^ 2))

/-- The mutable session state of `VORSimulatorGUI` that the navigation
kernel operates on (rendering-only attributes omitted): aircraft position
and heading, OBS setting, speed scale, active-station selector, and the
two station positions. -/
structure SimState : Type where
  air_x_val : ℝ
  air_y_val : ℝ
  airplane_angle : ℝ
  obs_angle : ℝ
  speed : ℝ
  active_vor : ℤ
  vor1_x : ℝ
  vor1_y : ℝ
  vor2_x : ℝ
  vor2_y : ℝ

/-- Embeds `move_airplane(self, dx, dy)` from `src/VOR_FINAL_UPDATED.py`:
returns unchanged state when `dx == 0 and dy == 0`; otherwise sets the
heading to `degrees(atan2(dx, -dy)) % 360` and translates the position by
`(dx * speed, dy * speed)`. -/
noncomputable def move_airplane (dx dy : ℝ) (s : SimState) : SimState :=
  if dx = 0 ∧ dy = 0 then s
  else
    { s with
      airplane_angle := pymod (degrees (atan2 dx (-dy))) 360
      air_x_val := s.air_x_val + dx * s.speed
      air_y_val := s.air_y_val + dy * s.speed }

/-- Embeds `rotate_obs(self, delta)` from `src/VOR_FINAL_UPDATED.py`:
`obs_angle = (obs_angle + delta) % 360` (the radial redraw is rendering). -/
noncomputable def rotate_obs (delta : ℝ) (s : SimState) : SimState :=
  { s with obs_angle := pymod (s.obs_angle + delta) 360 }

/-- Embeds `set_active_vor(self)` from `src/VOR_FINAL_UPDATED.py`:
`self.active_vor = self.active_vor_var.get()` followed by a redraw.  The
parameter `v` is the value held by the Tk selector variable that the
method reads. -/
def set_active_vor (v : ℤ) (s : SimState) : SimState :=
  { s with active_vor := v }

/-- Embeds `reset_simulation(self)` from `src/VOR_FINAL_UPDATED.py`:
position to (10, 10), heading and OBS to 0, speed to 0.5; the remaining
statements redraw and update labels only. -/
noncomputable def reset_simulation (s : SimState) : SimState :=
  { s with
    air_x_val := 10
    air_y_val := 10
    airplane_angle := 0
    obs_angle := 0
    speed := 0.5 }

/-- The station-coordinate lookup pattern used throughout
`src/VOR_FINAL_UPDATED.py`: `if self.active_vor == 1:` use station 1,
`else:` use station 2. -/
def active_vor_coords (s : SimState) : ℝ × ℝ :=
  if s.active_vor = 1 then (s.vor1_x, s.vor1_y) else (s.vor2_x, s.vor2_y)

/-- The session state as initialized by `VORSimulatorGUI.__init__`:
aircraft at (10, 10), heading 0, OBS 0, speed 0.7, active station 1,
station 1 at canvas (250, 250) and station 2 at canvas (1205, 442). -/
noncomputable def initState : SimState where
  air_x_val := 10
  air_y_val := 10
  airplane_angle := 0
  obs_angle := 0
  speed := 0.7
  active_vor := 1
  vor1_x := 50 * 5
  vor1_y := 50 * 5
  vor2_x := 241.0 * 5
  vor2_y := 88.4 * 5

section PyModLemmas

variable {K : Type} [LinearOrderedField K] [FloorRing K]

theorem pymod_eq_mul_fract (a b : K) (hb : b ≠ 0) :
    pymod a b = b * Int.fract (a / b) := by
  unfold pymod Int.fract
  rw [mul_sub, mul_comm b (a / b), div_mul_cancel₀ a hb]

theorem pymod_nonneg (a b : K) (hb : 0 < b) : 0 ≤ pymod a b := by
  rw [pymod_eq_mul_fract a b hb.ne.symm]
  exact mul_nonneg hb.le (Int.fract_nonneg _)

theorem pymod_lt (a b : K) (hb : 0 < b) : pymod a b < b := by
  rw [pymod_eq_mul_fract a b hb.ne.symm]
  calc b * Int.fract (a / b) < b * 1 :=
        (mul_lt_mul_left hb).mpr (Int.fract_lt_one _)
    _ = b := mul_one b

theorem pymod_add_int_mul (a b : K) (k : ℤ) (hb : b ≠ 0) :
    pymod (a + b * k) b = pymod a b := by
  unfold pymod
  have hdiv : (a + b * k) / b = a / b + k := by
    field_simp
    ring
  rw [hdiv, Int.floor_add_int]
  push_cast
  ring

theorem pymod_eq_self (a b : K) (h0 : 0 ≤ a) (h1 : a < b) : pymod a b = a := by
  have hb : 0 < b := lt_of_le_of_lt h0 h1
  unfold pymod
  have hfl : ⌊a / b⌋ = 0 := by
    rw [Int.floor_eq_zero_iff]
    constructor
    · exact div_nonneg h0 hb.le
    · exact (div_lt_one hb).mpr h1
  rw [hfl]
  push_cast
  ring

theorem pymod_pymod_add (a c b : K) (hb : b ≠ 0) :
    pymod (pymod a b + c) b = pymod (a + c) b := by
  have h : pymod a b + c = (a + c) + b * ((-⌊a / b⌋ : ℤ) : K) := by
    unfold pymod
    push_cast
    ring
  rw [h, pymod_add_int_mul _ _ _ hb]

theorem pymod_eq_sub (a b : K) (k : ℤ) (hb : 0 < b)
    (h1 : b * k ≤ a) (h2 : a < b * (k + 1)) : pymod a b = a - b * k := by
  unfold pymod
  have hfl : ⌊a / b⌋ = k := by
    rw [Int.floor_eq_iff]
    constructor
    · rw [le_div_iff₀ hb]
      linarith [h1]
    · rw [div_lt_iff₀ hb]
      linarith [h2]
  rw [hfl]

end PyModLemmas

theorem normalize_degrees_eq_pymod (a : ℚ) :
    normalize_degrees a = pymod a 360 := by
  unfold normalize_degrees
  have h : pymod a 360 + 360 = pymod a 360 + 360 * ((1 : ℤ) : ℚ) := by
    push_cast
    ring
  rw [h, pymod_add_int_mul _ _ _ (by norm_num)]
  exact pymod_eq_self _ _ (pymod_nonneg a 360 (by norm_num))
    (pymod_lt a 360 (by norm_num))

theorem pymod_shift180 (d : ℚ) (h0 : 0 ≤ d) (h1 : d < 360) :
    pymod (d + 180) 360 = if d < 180 then d + 180 else d - 180 := by
  split_ifs with h
  · exact pymod_eq_self _ _ (by linarith) (by linarith)
  · have heq : d + 180 = (d - 180) + 360 * ((1 : ℤ) : ℚ) := by
      push_cast
      ring
    rw [heq, pymod_add_int_mul _ _ _ (by norm_num)]
    exact pymod_eq_self _ _ (by linarith) (by linarith)

theorem to_from_characterization (obs bearing : ℚ) :
    calculate_vor_to_from obs bearing =
      if pymod (bearing - obs + 360) 360 < 90 ∨ pymod (bearing - obs + 360) 360 > 270
      then ToFrom.TO else ToFrom.FROM := by
  simp only [calculate_vor_to_from]
  set d := pymod (bearing - obs + 360) 360 with hd
  have h0 : 0 ≤ d := pymod_nonneg _ _ (by norm_num)
  have h1 : d < 360 := pymod_lt _ _ (by norm_num)
  rw [pymod_shift180 d h0 h1]
  rcases lt_or_ge d 180 with h | h
  · rw [if_pos h]
    simp only [min_def]
    split_ifs <;> first | rfl | (exfalso; push_neg at *; casesm* _ ∧ _, _ ∨ _ <;> linarith)
  · rw [if_neg (not_lt.mpr h)]
    simp only [min_def]
    split_ifs <;> first | rfl | (exfalso; push_neg at *; casesm* _ ∧ _, _ ∨ _ <;> linarith)

theorem diff_of_reciprocal_obs (obs bearing : ℚ) :
    pymod (bearing - normalize_degrees (obs + 180) + 360) 360
      = pymod (pymod (bearing - obs + 360) 360 + 180) 360 := by
  rw [normalize_degrees_eq_pymod, pymod_pymod_add _ _ _ (show (360:ℚ) ≠ 0 by norm_num)]
  have h : bearing - pymod (obs + 180) 360 + 360
      = (bearing - obs + 360 + 180) + 360 * ((⌊(obs + 180) / 360⌋ - 1 : ℤ) : ℚ) := by
    unfold pymod
    push_cast
    ring
  rw [h, pymod_add_int_mul _ _ _ (by norm_num)]

theorem cdiFoldedDiff_eq (obs bearing : ℚ) :
    cdiFoldedDiff obs bearing
      = if pymod (bearing - obs + 360) 360 ≤ 90 then pymod (bearing - obs + 360) 360
        else if pymod (bearing - obs + 360) 360 < 270 then pymod (bearing - obs + 360) 360 - 180
        else pymod (bearing - obs + 360) 360 - 360 := by
  simp only [cdiFoldedDiff]
  set d := pymod (bearing - obs + 360) 360 with hd
  have h0 : 0 ≤ d := pymod_nonneg _ _ (by norm_num)
  have h1 : d < 360 := pymod_lt _ _ (by norm_num)
  rcases le_or_lt d 180 with hA | hA
  · rw [if_neg (not_lt.mpr hA), if_neg (not_lt.mpr h0),
      abs_of_nonpos (by linarith : d - 180 ≤ 0), abs_of_nonneg h0]
    rcases le_or_lt d 90 with hB | hB
    · rw [if_neg (by linarith), if_pos hB]
    · rw [if_pos (by linarith), if_neg (not_le.mpr hB), if_pos (by linarith)]
  · rw [if_pos hA, if_pos (show d - 360 < 0 by linarith),
      abs_of_nonneg (show (0:ℚ) ≤ d - 360 + 180 by linarith),
      abs_of_neg (show d - 360 < 0 by linarith)]
    rcases lt_or_ge d 270 with hB | hB
    · rw [if_pos (by linarith), if_neg (by linarith), if_pos hB]
      ring
    · rw [if_neg (by linarith), if_neg (by linarith), if_neg (not_lt.mpr hB)]

theorem pymod_self_diff (obs : ℚ) : pymod (obs - obs + 360) 360 = 0 := by
  have h : obs - obs + 360 = (0 : ℚ) + 360 * ((1 : ℤ) : ℚ) := by
    push_cast
    ring
  rw [h, pymod_add_int_mul _ _ _ (show (360:ℚ) ≠ 0 by norm_num)]
  exact pymod_eq_self _ _ le_rfl (by norm_num)

theorem pymod_reciprocal_diff (obs : ℚ) :
    pymod (normalize_degrees (obs + 180) - obs + 360) 360 = 180 := by
  rw [normalize_degrees_eq_pymod]
  have h : pymod (obs + 180) 360 - obs + 360
      = (180 : ℚ) + 360 * ((1 - ⌊(obs + 180) / 360⌋ : ℤ) : ℚ) := by
    unfold pymod
    push_cast
    ring
  rw [h, pymod_add_int_mul _ _ _ (show (360:ℚ) ≠ 0 by norm_num)]
  exact pymod_eq_self _ _ (by norm_num) (by norm_num)

/-- C1: for every OBS setting in [0, 360), the CDI deflection is exactly 0
both when the bearing to the station equals the selected course and when
it equals the normalized exact reciprocal of the course. -/
theorem cdi_centers_on_course_and_reciprocal (obs : ℚ)
    (h0 : 0 ≤ obs) (h1 : obs < 360) :
    calculate_cdi_deflection obs obs = 0 ∧
    calculate_cdi_deflection obs (normalize_degrees (obs + 180)) = 0 := by
  constructor
  · rw [calculate_cdi_deflection, cdiFoldedDiff_eq, pymod_self_diff]
    norm_num
  · rw [calculate_cdi_deflection, cdiFoldedDiff_eq, pymod_reciprocal_diff]
    norm_num

/-- C1 witness: the centering property instantiated at OBS = 45. -/
theorem cdi_centers_witness :
    ((0:ℚ) ≤ 45 ∧ (45:ℚ) < 360) ∧
    (calculate_cdi_deflection 45 45 = 0 ∧
      calculate_cdi_deflection 45 (normalize_degrees (45 + 180)) = 0) :=
  ⟨by norm_num, cdi_centers_on_course_and_reciprocal 45 (by norm_num) (by norm_num)⟩

/-- C2: for all OBS and bearing values the CDI deflection lies in
[-10, 10], and it equals exactly +10 or -10 whenever the angular deviation
from the nearer of the two radial lines (the folded difference of steps
1-3) is at least 20 degrees. -/
theorem cdi_clamped_and_saturates (obs bearing : ℚ) :
    -10 ≤ calculate_cdi_deflection obs bearing ∧
    calculate_cdi_deflection obs bearing ≤ 10 ∧
    (20 ≤ |cdiFoldedDiff obs bearing| →
      calculate_cdi_deflection obs bearing = 10 ∨
        calculate_cdi_deflection obs bearing = -10) := by
  refine ⟨le_max_left _ _, max_le (by norm_num) (min_le_left _ _), ?_⟩
  intro h
  rcases le_abs.mp h with h2 | h2
  · left
    rw [calculate_cdi_deflection, min_eq_left (by linarith), max_eq_right (by norm_num)]
  · right
    rw [calculate_cdi_deflection, min_eq_right (by linarith), max_eq_left (by linarith)]

/-- C2 witness: at OBS = 0, bearing = 45 the deviation from the nearer
radial is 45 degrees, at least 20, and the needle saturates. -/
theorem cdi_saturates_witness :
    (20 : ℚ) ≤ |cdiFoldedDiff 0 45| ∧
    (calculate_cdi_deflection 0 45 = 10 ∨ calculate_cdi_deflection 0 45 = -10) :=
  ⟨by norm_num [cdiFoldedDiff, pymod],
    (cdi_clamped_and_saturates 0 45).2.2 (by norm_num [cdiFoldedDiff, pymod])⟩

/-- C3 counterexample: at OBS = 0 and bearing = 90 (the 90-degree
boundary) the indicator reads FROM for the course and also FROM for its
exact reciprocal, so the reciprocal course does not flip the TO/FROM
sense there. -/
theorem to_from_not_flipped_at_90 :
    calculate_vor_to_from 0 90 = ToFrom.FROM ∧
    calculate_vor_to_from (normalize_degrees (0 + 180)) 90
      ≠ ToFrom.opposite (calculate_vor_to_from 0 90) := by
  have hmain : calculate_vor_to_from 0 90 = ToFrom.FROM := by
    norm_num [calculate_vor_to_from, pymod]
  have hrecip : calculate_vor_to_from (normalize_degrees (0 + 180)) 90 = ToFrom.FROM := by
    norm_num [calculate_vor_to_from, normalize_degrees, pymod]
  refine ⟨hmain, ?_⟩
  rw [hmain, hrecip]
  intro hcon
  exact ToFrom.noConfusion hcon

/-- C3 amended: for every OBS and bearing whose normalized difference is
neither exactly 90 nor exactly 270 degrees, selecting the exact reciprocal
course flips the TO/FROM indication; at exactly 90 or 270 both courses
read FROM. -/
theorem to_from_reciprocal_flips (obs bearing : ℚ)
    (h90 : pymod (bearing - obs + 360) 360 ≠ 90)
    (h270 : pymod (bearing - obs + 360) 360 ≠ 270) :
    calculate_vor_to_from (normalize_degrees (obs + 180)) bearing
      = ToFrom.opposite (calculate_vor_to_from obs bearing) := by
  rw [to_from_characterization, to_from_characterization, diff_of_reciprocal_obs]
  set d := pymod (bearing - obs + 360) 360 with hd
  have h0 : 0 ≤ d := pymod_nonneg _ _ (by norm_num)
  have h1 : d < 360 := pymod_lt _ _ (by norm_num)
  rw [pymod_shift180 d h0 h1]
  rcases lt_or_ge d 180 with h | h
  · rw [if_pos h]
    split_ifs <;>
      first
        | rfl
        | (exfalso; push_neg at *; casesm* _ ∧ _, _ ∨ _ <;>
            first | linarith | (apply h90; linarith) | (apply h270; linarith))
  · rw [if_neg (not_lt.mpr h)]
    split_ifs <;>
      first
        | rfl
        | (exfalso; push_neg at *; casesm* _ ∧ _, _ ∨ _ <;>
            first | linarith | (apply h90; linarith) | (apply h270; linarith))

/-- C3 witness: the amended flip property instantiated at OBS = 0,
bearing = 0, where the normalized difference is 0. -/
theorem to_from_flips_witness :
    (pymod ((0:ℚ) - 0 + 360) 360 ≠ 90 ∧ pymod ((0:ℚ) - 0 + 360) 360 ≠ 270) ∧
    calculate_vor_to_from (normalize_degrees (0 + 180)) 0
      = ToFrom.opposite (calculate_vor_to_from 0 0) :=
  ⟨⟨by norm_num [pymod], by norm_num [pymod]⟩,
    to_from_reciprocal_flips 0 0 (by norm_num [pymod]) (by norm_num [pymod])⟩

/-- C4 counterexample: at OBS = 0, bearing = 270 the folded angle after
step 3 is exactly -90, which is not in the half-open interval (-90, 90]. -/
theorem cdi_folded_escapes_interval_at_270 :
    cdiFoldedDiff 0 270 = -90 ∧
    ¬(-90 < cdiFoldedDiff 0 270 ∧ cdiFoldedDiff 0 270 ≤ 90) := by
  have h : cdiFoldedDiff 0 270 = -90 := by norm_num [cdiFoldedDiff, pymod]
  rw [h]
  norm_num

/-- C4 amended: for every OBS and bearing the folded angle after step 3
lies in the closed interval [-90, 90]; the lower endpoint -90 is attained
(exactly when the normalized difference is 270 degrees). -/
theorem cdi_folded_diff_range (obs bearing : ℚ) :
    -90 ≤ cdiFoldedDiff obs bearing ∧ cdiFoldedDiff obs bearing ≤ 90 := by
  rw [cdiFoldedDiff_eq]
  have h0 : 0 ≤ pymod (bearing - obs + 360) 360 := pymod_nonneg _ _ (by norm_num)
  have h1 : pymod (bearing - obs + 360) 360 < 360 := pymod_lt _ _ (by norm_num)
  split_ifs <;> constructor <;> linarith

/-- C5 counterexample: selecting station index 99 on the 2-station state
is not rejected and does not leave the state unchanged: the active-station
index becomes 99. -/
theorem set_active_vor_99_changes_state :
    (set_active_vor 99 initState).active_vor = 99 ∧ initState.active_vor = 1 :=
  ⟨rfl, rfl⟩

/-- C5 amended: `set_active_vor` performs no range validation and signals
no error: it unconditionally stores the selector value as the active index
and changes nothing else; any value other than 1 makes the station
lookups read station 2. -/
theorem set_active_vor_stores_unvalidated (v : ℤ) (s : SimState) :
    (v ≠ 1 → active_vor_coords (set_active_vor v s) = (s.vor2_x, s.vor2_y)) ∧
    (set_active_vor v s).active_vor = v ∧
    (set_active_vor v s).air_x_val = s.air_x_val ∧
    (set_active_vor v s).air_y_val = s.air_y_val ∧
    (set_active_vor v s).airplane_angle = s.airplane_angle ∧
    (set_active_vor v s).obs_angle = s.obs_angle ∧
    (set_active_vor v s).speed = s.speed ∧
    (set_active_vor v s).vor1_x = s.vor1_x ∧
    (set_active_vor v s).vor1_y = s.vor1_y ∧
    (set_active_vor v s).vor2_x = s.vor2_x ∧
    (set_active_vor v s).vor2_y = s.vor2_y := by
  refine ⟨?_, rfl, rfl, rfl, rfl, rfl, rfl, rfl, rfl, rfl, rfl⟩
  intro hv
  simp [active_vor_coords, set_active_vor, hv]

/-- C5 witness: the amended behavior instantiated at index 99 on the
initial 2-station state. -/
theorem set_active_vor_witness :
    (99 : ℤ) ≠ 1 ∧
    active_vor_coords (set_active_vor 99 initState)
      = (initState.vor2_x, initState.vor2_y) :=
  ⟨by decide, (set_active_vor_stores_unvalidated 99 initState).1 (by decide)⟩

/-- C6: mutations keep heading and OBS normalized into [0, 360): after
`rotate_obs` with any real delta and after `move_airplane` with any
nonzero displacement both angles are in range (given they were in range
before), and in particular rotating the OBS by 370 from OBS = 0 yields
OBS = 10. -/
theorem mutations_keep_angles_normalized (s : SimState) (delta dx dy : ℝ)
    (hmove : ¬(dx = 0 ∧ dy = 0))
    (hhead : 0 ≤ s.airplane_angle ∧ s.airplane_angle < 360)
    (hobs : 0 ≤ s.obs_angle ∧ s.obs_angle < 360) :
    (0 ≤ (rotate_obs delta s).obs_angle ∧ (rotate_obs delta s).obs_angle < 360) ∧
    (0 ≤ (rotate_obs delta s).airplane_angle ∧
      (rotate_obs delta s).airplane_angle < 360) ∧
    (0 ≤ (move_airplane dx dy s).airplane_angle ∧
      (move_airplane dx dy s).airplane_angle < 360) ∧
    (0 ≤ (move_airplane dx dy s).obs_angle ∧
      (move_airplane dx dy s).obs_angle < 360) ∧
    (s.obs_angle = 0 → (rotate_obs 370 s).obs_angle = 10) := by
  have hmv : move_airplane dx dy s =
      { s with
        airplane_angle := pymod (degrees (atan2 dx (-dy))) 360
        air_x_val := s.air_x_val + dx * s.speed
        air_y_val := s.air_y_val + dy * s.speed } := by
    unfold move_airplane
    rw [if_neg hmove]
  refine ⟨⟨pymod_nonneg _ _ (by norm_num), pymod_lt _ _ (by norm_num)⟩,
    ⟨hhead.1, hhead.2⟩, ?_, ?_, ?_⟩
  · rw [hmv]
    exact ⟨pymod_nonneg _ _ (by norm_num), pymod_lt _ _ (by norm_num)⟩
  · rw [hmv]
    exact hobs
  · intro hzero
    show pymod (s.obs_angle + 370) 360 = 10
    rw [hzero, zero_add,
      pymod_eq_sub 370 360 1 (by norm_num) (by push_cast; norm_num)
        (by push_cast; norm_num)]
    push_cast
    norm_num

/-- C6 witness: the normalization property at the initial state with
OBS delta 5 and displacement (1, 0). -/
theorem mutations_normalized_witness :
    (¬((1:ℝ) = 0 ∧ (0:ℝ) = 0)) ∧
    (0 ≤ initState.airplane_angle ∧ initState.airplane_angle < 360) ∧
    (0 ≤ initState.obs_angle ∧ initState.obs_angle < 360) ∧
    ((0 ≤ (rotate_obs 5 initState).obs_angle ∧
        (rotate_obs 5 initState).obs_angle < 360) ∧
      (0 ≤ (rotate_obs 5 initState).airplane_angle ∧
        (rotate_obs 5 initState).airplane_angle < 360) ∧
      (0 ≤ (move_airplane 1 0 initState).airplane_angle ∧
        (move_airplane 1 0 initState).airplane_angle < 360) ∧
      (0 ≤ (move_airplane 1 0 initState).obs_angle ∧
        (move_airplane 1 0 initState).obs_angle < 360) ∧
      (initState.obs_angle = 0 → (rotate_obs 370 initState).obs_angle = 10)) :=
  ⟨by norm_num, by constructor <;> norm_num [initState],
    by constructor <;> norm_num [initState],
    mutations_keep_angles_normalized initState 5 1 0 (by norm_num)
      (by constructor <;> norm_num [initState])
      (by constructor <;> norm_num [initState])⟩

/-- C7: the bearing from a point to itself is 0 degrees by convention
(`atan2(0, 0) = 0`), and every bearing lies in [0, 360). -/
theorem bearing_degenerate_and_range (x y x1 y1 x2 y2 : ℝ) :
    calculate_bearing x y x y = 0 ∧
    (0 ≤ calculate_bearing x1 y1 x2 y2 ∧ calculate_bearing x1 y1 x2 y2 < 360) := by
  constructor
  · unfold calculate_bearing
    have h1 : atan2 (x - x) (y - y) = 0 := by
      unfold atan2
      have h0 : (⟨y - y, x - x⟩ : ℂ) = 0 := by
        simp [Complex.ext_iff]
      rw [h0]
      exact Complex.arg_zero
    have h2 : degrees 0 = 0 := by
      unfold degrees
      simp
    rw [h1, h2, zero_add,
      pymod_eq_sub 360 360 1 (by norm_num) (by push_cast; norm_num)
        (by push_cast; norm_num)]
    push_cast
    norm_num
  · exact ⟨pymod_nonneg _ _ (by norm_num), pymod_lt _ _ (by norm_num)⟩

theorem py_round2_zero : py_round2 0 = 0 := by
  unfold py_round2 py_round_int
  rw [zero_mul, if_pos (by rw [Int.fract_zero]; norm_num)]
  norm_num

theorem py_round_int_ge_one (y : ℝ) (hy : 1 / 2 < y) : 1 ≤ py_round_int y := by
  unfold py_round_int
  have hfl : 0 ≤ ⌊y⌋ := Int.le_floor.mpr (by push_cast; linarith)
  rcases eq_or_lt_of_le hfl with heq | hlt
  · have hfr : Int.fract y = y := by
      rw [Int.fract, ← heq]
      push_cast
      ring
    rw [if_neg (by rw [hfr]; linarith), if_pos (by rw [hfr]; exact hy), ← heq]
    norm_num
  · split_ifs <;> omega

theorem py_round2_pos (x : ℝ) (hx : 1 / 200 < x) : 0 < py_round2 x := by
  unfold py_round2
  have h1 : 1 ≤ py_round_int (x * 100) := py_round_int_ge_one _ (by linarith)
  have h2 : (1 : ℝ) ≤ (py_round_int (x * 100) : ℝ) := by exact_mod_cast h1
  positivity

/-- C8 counterexample: the two distinct points (0, 0) and (0.001, 0) have
`calculate_distance` equal to 0, because the true separation 0.001 rounds
to 0.00 at two decimal places. -/
theorem distance_zero_for_distinct_points :
    calculate_distance 0 0 (1 / 1000) 0 = 0 ∧
    ((1 / 1000 : ℝ), (0 : ℝ)) ≠ ((0 : ℝ), (0 : ℝ)) := by
  constructor
  · unfold calculate_distance
    have hs : Real.sqrt (((1 : ℝ) / 1000 - 0) ^ 2 + ((0 : ℝ) - 0) ^ 2) = 1 / 1000 := by
      rw [show ((1 : ℝ) / 1000 - 0) ^ 2 + ((0 : ℝ) - 0) ^ 2 = (1 / 1000) ^ 2 by ring]
      exact Real.sqrt_sq (by norm_num)
    rw [hs]
    unfold py_round2 py_round_int
    have hfl : ⌊(1 / 1000 : ℝ) * 100⌋ = 0 := by
      rw [Int.floor_eq_zero_iff, Set.mem_Ico]
      norm_num
    have hfr : Int.fract ((1 / 1000 : ℝ) * 100) = 1 / 10 := by
      rw [Int.fract, hfl]
      norm_num
    rw [if_pos (by rw [hfr]; norm_num), hfl]
    norm_num
  · intro hcon
    have hfst := congrArg Prod.fst hcon
    norm_num at hfst

/-- C8 amended: `calculate_distance(P, P) = 0` for every point, and the
distance of two points is nonzero (indeed positive) whenever their
squared separation exceeds `0.005 ^ 2`; distinct points at most 0.005
apart can round to a distance of 0. -/
theorem distance_zero_behavior (x1 y1 x2 y2 : ℝ)
    (hsep : 1 / 40000 < (x2 - x1) ^ 2 + (y2 - y1) ^ 2) :
    calculate_distance x1 y1 x1 y1 = 0 ∧ 0 < calculate_distance x1 y1 x2 y2 := by
  constructor
  · unfold calculate_distance
    rw [show (x1 - x1) ^ 2 + (y1 - y1) ^ 2 = (0 : ℝ) by ring, Real.sqrt_zero,
      py_round2_zero]
  · unfold calculate_distance
    apply py_round2_pos
    have hnn : (0 : ℝ) ≤ (x2 - x1) ^ 2 + (y2 - y1) ^ 2 := by positivity
    rw [show (1 / 200 : ℝ) = Real.sqrt ((1 / 200) ^ 2) from
      (Real.sqrt_sq (by norm_num)).symm]
    apply Real.sqrt_lt_sqrt (by norm_num)
    calc ((1 : ℝ) / 200) ^ 2 = 1 / 40000 := by norm_num
      _ < (x2 - x1) ^ 2 + (y2 - y1) ^ 2 := hsep

/-- C8 witness: the amended positivity at the points (0, 0) and (1, 0),
whose squared separation 1 exceeds the rounding threshold. -/
theorem distance_positive_witness :
    (1 / 40000 : ℝ) < ((1 : ℝ) - 0) ^ 2 + ((0 : ℝ) - 0) ^ 2 ∧
    (calculate_distance 0 0 0 0 = 0 ∧ 0 < calculate_distance 0 0 1 0) :=
  ⟨by norm_num, distance_zero_behavior 0 0 1 0 (by norm_num)⟩

/-- C9: `move_airplane(0, 0)` is a no-op for every state (hence for every
speed scale): position and heading keep exactly their prior values. -/
theorem move_airplane_zero_noop (s : SimState) :
    (move_airplane 0 0 s).air_x_val = s.air_x_val ∧
    (move_airplane 0 0 s).air_y_val = s.air_y_val ∧
    (move_airplane 0 0 s).airplane_angle = s.airplane_angle := by
  have h : move_airplane 0 0 s = s := by
    unfold move_airplane
    rw [if_pos ⟨rfl, rfl⟩]
  rw [h]
  exact ⟨rfl, rfl, rfl⟩

/-- C10 counterexample: 0.5 is not the session default speed: the
constructor initializes the speed scale to 0.7, and `reset_simulation`
does not restore that value. -/
theorem reset_speed_not_session_default :
    initState.speed = 0.7 ∧ (reset_simulation initState).speed = 0.5 ∧
    (0.5 : ℝ) ≠ 0.7 :=
  ⟨rfl, rfl, by norm_num⟩

/-- C10 amended: `reset_simulation` sets the speed scale to the fixed
constant 0.5 regardless of its prior value (even though the constructor
default is 0.7), returns position, heading and OBS to (10, 10), 0 and 0,
and leaves the active-station index unchanged. -/
theorem reset_sets_fixed_speed (s : SimState) :
    (reset_simulation s).speed = 0.5 ∧
    (reset_simulation s).active_vor = s.active_vor ∧
    (reset_simulation s).air_x_val = 10 ∧
    (reset_simulation s).air_y_val = 10 ∧
    (reset_simulation s).airplane_angle = 0 ∧
    (reset_simulation s).obs_angle = 0 :=
  ⟨rfl, rfl, rfl, rfl, rfl, rfl⟩
